import Mathlib

/-
Verification development for the Avito rental chat bot
(files `main.py` and `telegram.py`).

The Python code is shallowly embedded:
  * chat messages become the `Message` structure;
  * the pure helpers `determine_dialog_stage` and `format_dialog_history`
    become Lean functions over lists of messages;
  * the stateful reconciliation loop `process_chat` / `handle_completed_dialog`
    becomes an explicit state-passing function over `BotState`, with the
    external collaborators (message fetch, response generator, sender,
    extractor, notifier) supplied through a `ChatEnv` record and all
    externally visible calls recorded in a trace of `Effect`s;
  * `telegram.py`'s `send_client_info` becomes a total function whose fallible
    inner steps run in `Except` (modelling Python exceptions) and whose
    enclosing try/except maps every error to `false`.

Python string primitives used by the source (`str.lower`, `str.strip`,
`in`, `str.replace`, `str.isdigit`) are modelled character-exactly for the
character classes the program manipulates (ASCII and Cyrillic); this is noted
at each definition.
-/

/-- Dialog stages, mirroring the `STAGE_*` constants of `main.py`. -/
inductive Stage
  | greeting
  | residents
  | children
  | pets
  | rental_period
  | deadline
  | contacts
  | complete
deriving DecidableEq

/-- A chat message as fetched from the platform: `direction` (`"in"`/`"out"`),
`type` (only `"text"` is processed), the `content.text` payload, and the
`created` unix timestamp.  Fields the code reads with a default (`created`,
`text`) are total here; a missing field corresponds to the default value. -/
structure Message where
  direction : String
  type : String
  text : String
  created : Nat
deriving DecidableEq

/-- Python `str.lower` on one character, for the ASCII range and the Cyrillic
range actually used by the program (А..Я, Ё). -/
def pyLowerChar (c : Char) : Char :=
  if 65 ≤ c.toNat ∧ c.toNat ≤ 90 then Char.ofNat (c.toNat + 32)
  else if 1040 ≤ c.toNat ∧ c.toNat ≤ 1071 then Char.ofNat (c.toNat + 32)
  else if c.toNat = 1025 then Char.ofNat 1105
  else c

/-- Python `str.lower` (character-wise). -/
def pyLower (s : String) : String :=
  ⟨s.toList.map pyLowerChar⟩

/-- Python `str.strip`: drop leading and trailing whitespace. -/
def pyStrip (s : String) : String :=
  ⟨((s.toList.dropWhile Char.isWhitespace).reverse.dropWhile Char.isWhitespace).reverse⟩

/-- Membership of `pat` as a contiguous run inside a list, as decided by
Python's `pat in hay` on strings. -/
def listContains : List Char → List Char → Bool
  | hay, pat =>
    match hay with
    | [] => pat.isEmpty
    | _ :: rest => pat.isPrefixOf hay || listContains rest pat

/-- Python's substring test `pat in hay`. -/
def strContains (hay pat : String) : Bool :=
  listContains hay.toList pat.toList

/-- One scan step of Python `str.replace(old, "")`: remove every
non-overlapping occurrence of `pat`, leftmost first.  `fuel` is the length of
the scanned list, which bounds the recursion. -/
def pyReplaceAux (pat : List Char) : Nat → List Char → List Char
  | _, [] => []
  | 0, l => l
  | fuel + 1, c :: rest =>
    if pat.isPrefixOf (c :: rest) then
      pyReplaceAux pat fuel (rest.drop (pat.length - 1))
    else
      c :: pyReplaceAux pat fuel rest

/-- Python `s.replace(pat, "")` (deletion of all non-overlapping occurrences,
scanning left to right; an empty pattern leaves the string unchanged, as in
Python when the replacement is empty). -/
def pyReplace (s pat : String) : String :=
  if pat.toList.isEmpty then s
  else ⟨pyReplaceAux pat.toList s.toList.length s.toList⟩

/-- The per-message preprocessing of `determine_dialog_stage`: keep `text`
messages whose stripped, lowercased text is non-empty, paired with their
direction. -/
def messageStageText (m : Message) : Option (String × String) :=
  if m.type == "text" then
    let t := pyLower (pyStrip m.text)
    if t == "" then none else some (m.direction, t)
  else none

/-- The `agent_messages` list of `determine_dialog_stage` (direction `"out"`). -/
def agentMessages (messages : List Message) : List String :=
  (messages.filterMap messageStageText).filterMap
    (fun p => if p.1 == "out" then some p.2 else none)

/-- The `client_messages` list of `determine_dialog_stage` (any direction
other than `"out"`, matching the `else` branch of the source). -/
def clientMessages (messages : List Message) : List String :=
  (messages.filterMap messageStageText).filterMap
    (fun p => if p.1 == "out" then none else some p.2)

/-- The `has_greeting` test of `determine_dialog_stage`. -/
def hasGreeting (agent : List String) : Bool :=
  agent.any (fun m => strContains m "здравствуйте" && strContains m "светлана")

/-- The `client_text` of `determine_dialog_stage`:
`" ".join(client_messages).lower()`. -/
def clientText (client : List String) : String :=
  pyLower (String.intercalate " " client)

/-- The `last_agent_msg` of `determine_dialog_stage`
(`agent_messages[-1] if agent_messages else ""`). -/
def lastAgentMsg (agent : List String) : String :=
  agent.getLast?.getD ""

/-- The `has_residents_info` test of `determine_dialog_stage`. -/
def hasResidentsInfo (ct : String) : Bool :=
  ["человек", "буду", "планирую", "один", "два", "три", "семь", "пара",
    "семья"].any (fun w => strContains ct w)

/-- The `has_period_info` test of `determine_dialog_stage`.  The second
disjunct embeds Python's
`any(char.isdigit() for char in client_text if "месяц" in client_text)`. -/
def hasPeriodInfo (ct : String) : Bool :=
  (["месяц", "год", "надолго", "постоянно"].any (fun w => strContains ct w)) ||
  (ct.toList.any (fun c => strContains ct "месяц" && c.isDigit))

/-- The `has_date_info` test of `determine_dialog_stage`. -/
def hasDateInfo (ct : String) : Bool :=
  (["август", "сентябр", "октябр", "ноябр", "декабр", "январ", "феврал",
    "март", "апрел", "май", "июн", "июл"].any (fun w => strContains ct w)) ||
  (strContains ct "число" && ct.toList.any (fun c => c.isDigit))

/-- The `has_phone` test of `determine_dialog_stage`: some client message
contains at least ten digit characters in total
(`len([c for c in msg if c.isdigit()]) >= 10`). -/
def hasPhone (client : List String) : Bool :=
  client.any (fun m => 10 ≤ (m.toList.filter (fun c => c.isDigit)).length)

/-- `AvitoRentalBot.determine_dialog_stage`: the ordered stage-classification
rules of `main.py`. -/
def determine_dialog_stage (messages : List Message) : Stage :=
  let agent := agentMessages messages
  let client := clientMessages messages
  if agent.isEmpty then Stage.greeting
  else if !hasGreeting agent then Stage.greeting
  else
    let ct := clientText client
    let last := lastAgentMsg agent
    if !hasResidentsInfo ct || strContains last "кто проживать планирует" then
      Stage.residents
    else if (strContains last "дет" || strContains last "ребен")
        && !hasPeriodInfo ct then
      Stage.children
    else if (strContains last "животн" || strContains last "питом")
        && !hasPeriodInfo ct then
      Stage.pets
    else if !hasPeriodInfo ct
        || (strContains last "срок" || strContains last "месяц") then
      Stage.rental_period
    else if !hasDateInfo ct
        || (strContains last "дата" || strContains last "заез") then
      Stage.deadline
    else if !hasPhone client
        || (strContains last "телефон" || strContains last "номер") then
      Stage.contacts
    else
      Stage.complete

/-- Python's slice `l[-n:]` for `n ≥ 0`: the last `n` elements, the whole
list when `n = 0` (Python's `l[-0:]` is `l[0:]`). -/
def takeLastPy (n : Nat) (l : List α) : List α :=
  if n = 0 then l else l.drop (l.length - n)

/-- Rendering of one message inside `format_dialog_history`: `text` messages
with non-empty stripped text become a role-labelled line; an outgoing line
already starting with the agent label has that one leading label removed
(`clean_text[10:].strip()`) before re-labelling. -/
def renderLine (m : Message) : Option String :=
  if m.type == "text" then
    let text := pyStrip m.text
    if text == "" then none
    else if m.direction == "in" then some ("Клиент: " ++ text)
    else if m.direction == "out" then
      let clean :=
        if ("Светлана: ").toList.isPrefixOf text.toList then
          pyStrip ⟨text.toList.drop 10⟩
        else text
      some ("Светлана: " ++ clean)
    else none
  else none

/-- The `dialog` list built by `format_dialog_history` for history cap `n`
(`MAX_MESSAGES_HISTORY` in the source): last `n` messages, stably sorted
ascending by `created` (Python's `sorted` is stable; `List.insertionSort`
is the same stable sort), then rendered. -/
def formatLines (n : Nat) (messages : List Message) : List String :=
  (List.insertionSort (fun a b => a.created ≤ b.created)
    (takeLastPy n messages)).filterMap renderLine

/-- `AvitoRentalBot.format_dialog_history`: the newline-joined transcript. -/
def format_dialog_history (n : Nat) (messages : List Message) : String :=
  String.intercalate "\n" (formatLines n messages)

/-- The `is_first_message` flag computed by `process_chat`: no outgoing text
message exists in the fetched list. -/
def is_first_message (messages : List Message) : Bool :=
  !(messages.any fun m => m.direction == "out" && m.type == "text")

/-- Pointwise update of a finite-map-as-function, modelling `d[k] = v` on a
Python dict (with `defaultdict` reads modelled by the function's value
elsewhere). -/
def fupdate (f : String → α) (k : String) (v : α) : String → α :=
  fun x => if x == k then v else f x

/-- The mutable state of `AvitoRentalBot`:
`processed_messages` (defaultdict(int)), `completed_chats` (set membership),
`chat_stages` (defaultdict greeting), `chat_states` (defaultdict(list)). -/
structure BotState where
  processed : String → Nat
  completed : String → Bool
  stages : String → Stage
  states : String → List String

/-- The freshly constructed bot state (`AvitoRentalBot.__init__`). -/
def initState : BotState :=
  ⟨fun _ => 0, fun _ => false, fun _ => Stage.greeting, fun _ => []⟩

/-- A Python value appearing in the extractor's field mapping: string, bool,
integer or `None`; enough to model truthiness and `str()` rendering. -/
inductive PyVal
  | s (v : String)
  | b (v : Bool)
  | i (v : Int)
  | none
deriving DecidableEq

/-- Python truthiness of a `PyVal`. -/
def PyVal.truthy : PyVal → Bool
  | .s v => !(v == "")
  | .b v => v
  | .i v => !(v == 0)
  | .none => false

/-- Python `str()` of a `PyVal`, as interpolated by an f-string. -/
def PyVal.render : PyVal → String
  | .s v => v
  | .b true => "True"
  | .b false => "False"
  | .i v => toString v
  | .none => "None"

/-- A field mapping (Python dict) handed to the notifier. -/
abbrev FieldMap := List (String × PyVal)

/-- Python `data.get(k)`: the stored value, or absence. -/
def flookup (d : FieldMap) (k : String) : Option PyVal :=
  (d.find? (fun p => p.1 == k)).map (fun p => p.2)

/-- Python `data.get(k)` with its implicit `None` default. -/
def fget (d : FieldMap) (k : String) : PyVal :=
  (flookup d k).getD PyVal.none

/-- The externally visible calls a reconciliation run performs, in order. -/
inductive Effect
  | genCall (history : String) (firstMsg : Bool)
  | sendMsg (chat : String) (text : String)
  | extractCall (finalDialog : String)
  | notify (data : FieldMap)
deriving DecidableEq

/-- One cycle's external world for a single conversation: the fetched
messages, the recency cutoff (the integer timestamp bound corresponding to
`utcnow() - TIME_WINDOW_HOURS`, so that `message_time < cutoff_time` is
`created < cutoff`), and the outcomes of the response generator, the sender,
the extractor (which may raise, per the error taxonomy of the collaborators),
and the notifier.  A generator outcome of `none` covers both a `None` result
and a raised exception, which the source treats identically (state unmodified
past that point); likewise `sendOk = false` covers a failed or raising send. -/
structure ChatEnv where
  messages : List Message
  cutoff : Nat
  response : Option String
  sendOk : Bool
  extractRaises : Bool
  extracted : Option FieldMap
  notifyOk : Bool

/-- Modelled from the spec: `check_dialog_completion` lives in the absent
`chat_gpt.py`; per the spec the generated reply "may embed a fixed
completion-marker substring signaling funnel end" and the reconciler tests
whether "the raw (pre-strip) generated text contains the completion marker",
so it is the substring test against the configured marker. -/
def check_dialog_completion (marker response : String) : Bool :=
  strContains response marker

/-- The configuration surface the reconciler reads: the completion marker
string and the history cap (`COMPLETION_MARKER`, `MAX_MESSAGES_HISTORY`;
their concrete values live in the absent `config.py`). -/
structure Config where
  marker : String
  histCap : Nat

/-- The `last_incoming` scan of `process_chat`: the latest (strictly greater
`created` wins, first seen wins ties) incoming text message with non-empty
stripped text. -/
def lastIncoming (messages : List Message) : Option Message :=
  messages.foldl
    (fun acc m =>
      if m.direction == "in" && m.type == "text" && !(pyStrip m.text == "") then
        match acc with
        | Option.none => some m
        | some prev => if prev.created < m.created then some m else some prev
      else acc)
    Option.none

/-- `AvitoRentalBot.handle_completed_dialog`.  The whole body is a
`try/except`: if the extractor raises, the exception is caught and the
function returns with the state unmodified (in particular without adding
`chat_id` to `completed_chats`); otherwise the notifier is invoked exactly
when the extracted mapping is truthy, and the chat is marked completed
regardless of the notifier's boolean outcome. -/
def handle_completed_dialog (cid : String) (finalDialog : String)
    (env : ChatEnv) (s : BotState) : BotState × List Effect :=
  if env.extractRaises then (s, [Effect.extractCall finalDialog])
  else
    let eff :=
      match env.extracted with
      | some d => if d.isEmpty then [] else [Effect.notify d]
      | Option.none => []
    ({ s with completed := fupdate s.completed cid true },
      Effect.extractCall finalDialog :: eff)

/-- `AvitoRentalBot.process_chat` for one conversation `cid`: the guard
chain (completed set, empty fetch, no eligible inbound, stale inbound,
already-processed inbound, newer outgoing reply), then stage classification
(stored into `chat_stages` before generation), history formatting, response
generation, marker stripping, dispatch, and — on successful dispatch —
the `processed_messages`/`chat_states` updates and the completion check on
the raw response. -/
def process_chat (cfg : Config) (cid : String) (env : ChatEnv)
    (s : BotState) : BotState × List Effect :=
  if s.completed cid then (s, [])
  else if env.messages.isEmpty then (s, [])
  else
    match lastIncoming env.messages with
    | Option.none => (s, [])
    | some last =>
      if last.created < env.cutoff then (s, [])
      else if last.created ≤ s.processed cid then (s, [])
      else if env.messages.any
          (fun m => m.direction == "out" && last.created < m.created) then
        (s, [])
      else
        let stage := determine_dialog_stage env.messages
        let s1 : BotState := { s with stages := fupdate s.stages cid stage }
        let firstMsg := is_first_message env.messages
        let dialogHistory := format_dialog_history cfg.histCap env.messages
        let gen := Effect.genCall dialogHistory firstMsg
        match env.response with
        | Option.none => (s1, [gen])
        | some r =>
          if r == "" then (s1, [gen])
          else
            let clean := pyStrip (pyReplace r cfg.marker)
            if env.sendOk then
              let s2 : BotState := { s1 with
                processed := fupdate s1.processed cid last.created,
                states := fupdate s1.states cid (s1.states cid ++ [dialogHistory]) }
              if check_dialog_completion cfg.marker r then
                let finalDialog := dialogHistory ++ "\nСветлана: " ++ clean
                let hres := handle_completed_dialog cid finalDialog env s2
                (hres.1, gen :: Effect.sendMsg cid clean :: hres.2)
              else (s2, [gen, Effect.sendMsg cid clean])
            else (s1, [gen, Effect.sendMsg cid clean])

/-- A sequence of reconciliation invocations (arbitrary conversations and
environments), run sequentially against the shared state. -/
def runCycles (cfg : Config) (steps : List (String × ChatEnv))
    (s : BotState) : BotState :=
  steps.foldl (fun st p => (process_chat cfg p.1 p.2 st).1) s

/-- The object a `client_data` argument of `send_client_info` resolves to
after the optional `json.loads`: a mapping, or any non-mapping value (on
which the subsequent `.get` attribute access raises). -/
inductive PyObj
  | dict (d : FieldMap)
  | nonDict
deriving DecidableEq

/-- The public input of `send_client_info`: a JSON string to be parsed, or
an already-built object. -/
inductive ClientInfoInput
  | str (s : String)
  | obj (o : PyObj)
deriving DecidableEq

/-- One optional line of the summary message of `send_client_info`: rendered
only when the field is truthy (`if data.get(key): message += label…`). -/
def optLine (d : FieldMap) (key label : String) : String :=
  if (fget d key).truthy then label ++ (fget d key).render ++ "\n" else ""

/-- The children line of the summary: detail text (default "Есть дети") when
`has_children` is truthy, the fixed "Дети: Нет" line otherwise. -/
def childrenLine (d : FieldMap) : String :=
  if (fget d "has_children").truthy then
    "Дети: " ++ (match flookup d "children_details" with
      | some v => v.render
      | Option.none => "Есть дети") ++ "\n"
  else "Дети: Нет\n"

/-- The pets line of the summary: detail text (default "Есть животные") when
`has_pets` is truthy, the fixed "Животные: Нет" line otherwise. -/
def petsLine (d : FieldMap) : String :=
  if (fget d "has_pets").truthy then
    "Животные: " ++ (match flookup d "pets_details" with
      | some v => v.render
      | Option.none => "Есть животные") ++ "\n"
  else "Животные: Нет\n"

/-- The full summary message built by `send_client_info` from a mapping. -/
def render_client_message (d : FieldMap) : String :=
  "НОВАЯ ЗАЯВКА НА АРЕНДУ\n\n"
    ++ optLine d "name" "Имя: "
    ++ optLine d "phone" "Телефон: "
    ++ optLine d "residents_info" "Жильцы: "
    ++ optLine d "residents_count" "Количество взрослых: "
    ++ childrenLine d
    ++ petsLine d
    ++ optLine d "rental_period" "Срок аренды: "
    ++ optLine d "move_in_deadline" "Дата заезда: "
    ++ "\nСтатус: Готов к презентации собственнице"

/-- `TelegramBot.send_client_info`.  The fallible steps run in `Except`
(modelling raised exceptions): `parse` is `json.loads` (raises on invalid
JSON), the attribute access `.get` on a non-mapping raises, and `send` is the
HTTP dispatch of `send_message` (may raise on transport errors, returns a
boolean otherwise).  The enclosing `try/except Exception` maps every error to
`False`, so the function itself is total with a boolean result. -/
def send_client_info (input : ClientInfoInput)
    (parse : String → Except String PyObj)
    (send : String → Except String Bool) : Bool :=
  let parsed : Except String PyObj :=
    match input with
    | ClientInfoInput.str s => parse s
    | ClientInfoInput.obj o => Except.ok o
  let body : Except String Bool :=
    match parsed with
    | Except.error e => Except.error e
    | Except.ok PyObj.nonDict => Except.error "AttributeError"
    | Except.ok (PyObj.dict d) => send (render_client_message d)
  match body with
  | Except.ok b => b
  | Except.error _ => false

/-- The predicate of claim C5 in the spec's words (not the source's): the
length of the longest run of consecutive digit characters, tracked as
(current run, best so far). -/
def specMaxDigitRunAux : List Char → Nat → Nat → Nat
  | [], cur, best => max cur best
  | c :: rest, cur, best =>
    if c.isDigit then specMaxDigitRunAux rest (cur + 1) best
    else specMaxDigitRunAux rest 0 (max cur best)

/-- The spec-side phone test of claim C5: the string contains a run of at
least `n` consecutive digit characters. -/
def specHasDigitRun (n : Nat) (s : String) : Bool :=
  n ≤ specMaxDigitRunAux s.toList 0 0

instance : IsTotal Message (fun a b => a.created ≤ b.created) :=
  ⟨fun a b => Nat.le_total a.created b.created⟩

instance : IsTrans Message (fun a b => a.created ≤ b.created) :=
  ⟨fun _ _ _ h1 h2 => Nat.le_trans h1 h2⟩

instance : IsAntisymm Message (fun a b => a.created < b.created) :=
  ⟨fun _ _ h1 h2 => absurd (Nat.lt_trans h1 h2) (Nat.lt_irrefl _)⟩

/-- A successful `lastIncoming` scan implies the fetched list is non-empty. -/
theorem lastIncoming_isEmpty_false (messages : List Message) (m : Message)
    (h : lastIncoming messages = some m) : messages.isEmpty = false := by
  cases messages with
  | nil => simp [lastIncoming] at h
  | cons a l => rfl

/-- The completion handoff never touches `processed_messages`. -/
theorem handle_processed_eq (cid finalDialog : String) (env : ChatEnv)
    (s : BotState) :
    (handle_completed_dialog cid finalDialog env s).1.processed = s.processed := by
  unfold handle_completed_dialog
  split
  · rfl
  · rfl

/-- Writing a value that the guard certifies to be strictly above the stored
one never decreases any entry of the map. -/
theorem fupdate_self_le (f : String → Nat) (cid c : String) (v : Nat)
    (h : ¬ v ≤ f cid) : f c ≤ fupdate f cid v c := by
  unfold fupdate
  split
  next hc =>
    rw [show c = cid from eq_of_beq hc]
    omega
  next => exact Nat.le_refl _

/-- One reconciliation invocation never decreases any conversation's stored
`last_processed_created`. -/
theorem process_chat_processed_le (cfg : Config) (cid : String) (env : ChatEnv)
    (s : BotState) (c : String) :
    s.processed c ≤ (process_chat cfg cid env s).1.processed c := by
  unfold process_chat
  split
  · exact Nat.le_refl _
  split
  · exact Nat.le_refl _
  split
  · exact Nat.le_refl _
  next last heq =>
  split
  · exact Nat.le_refl _
  split
  · exact Nat.le_refl _
  next hproc =>
  split
  · exact Nat.le_refl _
  split
  · exact Nat.le_refl _
  next r =>
  split
  · exact Nat.le_refl _
  split
  · split
    · rw [handle_processed_eq]
      exact fupdate_self_le s.processed cid c last.created hproc
    · exact fupdate_self_le s.processed cid c last.created hproc
  · exact Nat.le_refl _

/-- C1: if the latest eligible inbound message's `created` timestamp is at
most the stored `last_processed_created` for the conversation (in particular
when they are equal), `process_chat` returns with the state untouched and
performs no external call — no generator call, no reply dispatch, no state
update. -/
theorem C1_already_processed_skip (cfg : Config) (cid : String)
    (env : ChatEnv) (s : BotState) (m : Message)
    (hlast : lastIncoming env.messages = some m)
    (hle : m.created ≤ s.processed cid) :
    process_chat cfg cid env s = (s, []) := by
  unfold process_chat
  rw [lastIncoming_isEmpty_false env.messages m hlast, hlast]
  split
  · rfl
  · simp only [Bool.false_eq_true, if_false]
    split
    · rfl
    · rfl

def W1msg : Message := ⟨"in", "text", "hi", 100⟩

def W1env : ChatEnv := ⟨[W1msg], 0, some "ok", true, false, none, true⟩

def W1state : BotState :=
  { initState with processed := fupdate initState.processed "c1" 100 }

/-- Witness for C1 at the exact-equality boundary: inbound timestamp 100,
stored `last_processed_created` 100. -/
theorem C1_already_processed_skip_witness :
    process_chat ⟨"X", 30⟩ "c1" W1env W1state = (W1state, []) :=
  C1_already_processed_skip ⟨"X", 30⟩ "c1" W1env W1state W1msg
    (by decide) (by decide)

/-- C2: across any (sequential) sequence of `process_chat` invocations with
arbitrary fetched message lists, the stored `last_processed_created` of every
conversation never decreases; moreover a single invocation that changes the
value assigns one strictly greater than the previous stored value. -/
theorem C2_processed_monotone (cfg : Config)
    (steps : List (String × ChatEnv)) (s : BotState) (c : String)
    (cid : String) (env : ChatEnv) :
    s.processed c ≤ (runCycles cfg steps s).processed c ∧
    ((process_chat cfg cid env s).1.processed cid ≠ s.processed cid →
      s.processed cid < (process_chat cfg cid env s).1.processed cid) := by
  constructor
  · induction steps generalizing s with
    | nil => exact Nat.le_refl _
    | cons p rest ih =>
        exact Nat.le_trans (process_chat_processed_le cfg p.1 p.2 s c) (ih _)
  · intro hne
    exact Nat.lt_of_le_of_ne (process_chat_processed_le cfg cid env s cid)
      (Ne.symm hne)

def W2env : ChatEnv :=
  ⟨[⟨"in", "text", "hi", 100⟩], 0, some "ok", true, false, none, true⟩

/-- Witness for C2: an invocation that writes does so with a strictly larger
value (0 becomes 100). -/
theorem C2_processed_monotone_witness :
    initState.processed "c1" <
      (process_chat ⟨"X", 30⟩ "c1" W2env initState).1.processed "c1" :=
  (C2_processed_monotone ⟨"X", 30⟩ [] initState "c1" "c1" W2env).2 (by decide)

def C3cxEnv : ChatEnv :=
  ⟨[], 0, none, false, true, some [("name", PyVal.s "x")], true⟩

/-- Counterexample to C3 as stated: when the extractor raises, the exception
is caught by the handler's own try/except before the `completed_chats.add`
line runs, so the conversation is NOT marked completed — contradicting
"the conversation is marked completed ... whether the extractor returns a
mapping, returns empty, or raises". -/
theorem C3_completed_counterexample :
    (handle_completed_dialog "c1" "dialog" C3cxEnv initState).1.completed "c1"
      = false := by decide

/-- C3 (amended): whenever the extractor returns normally (any result,
including an empty mapping) the conversation is marked completed, regardless
of the notifier's outcome; the notifier as implemented returns a boolean and
never raises. -/
theorem C3_completed_marked (cid finalDialog : String) (env : ChatEnv)
    (s : BotState) (h : env.extractRaises = false) :
    (handle_completed_dialog cid finalDialog env s).1.completed cid = true := by
  unfold handle_completed_dialog
  rw [h]
  simp [fupdate]

def W3env : ChatEnv := ⟨[], 0, none, false, false, none, false⟩

/-- Witness for C3 (amended): extractor returns empty, notifier never runs,
the chat is still marked completed. -/
theorem C3_completed_marked_witness :
    (handle_completed_dialog "c2" "dialog" W3env initState).1.completed "c2"
      = true :=
  C3_completed_marked "c2" "dialog" W3env initState rfl

/-- Counterexample to C4 as stated: two messages with equal `created`
timestamps.  Python's sort (and this embedding's insertion sort) is stable,
so swapping the two equal-key messages permutes the input multiset yet
changes the transcript. -/
theorem C4_permutation_counterexample :
    ([⟨"in", "text", "a", 5⟩, ⟨"in", "text", "b", 5⟩] : List Message).Perm
      [⟨"in", "text", "b", 5⟩, ⟨"in", "text", "a", 5⟩] ∧
    format_dialog_history 30 [⟨"in", "text", "a", 5⟩, ⟨"in", "text", "b", 5⟩] ≠
      format_dialog_history 30 [⟨"in", "text", "b", 5⟩, ⟨"in", "text", "a", 5⟩] :=
  ⟨List.Perm.swap _ _ _, by decide⟩

/-- C4 (amended): for a positive cap `n`, the History Formatter's transcript
is invariant under permutation of the input list provided the list fits in
the cap and the `created` timestamps are pairwise distinct (the last-`n`
selection precedes sorting, and the sort is stable, so both restrictions are
needed); and the transcript always contains at most `n` rendered message
lines. -/
theorem C4_formatter_invariance (n : Nat) (l1 l2 : List Message)
    (hn : 0 < n) :
    (l1.Perm l2 → l1.length ≤ n →
      l1.Pairwise (fun a b => a.created ≠ b.created) →
      format_dialog_history n l1 = format_dialog_history n l2) ∧
    (formatLines n l1).length ≤ n := by
  have hnz : n ≠ 0 := Nat.pos_iff_ne_zero.mp hn
  constructor
  · intro hp hlen hpw
    have hlen2 : l2.length ≤ n := hp.length_eq ▸ hlen
    have ht1 : takeLastPy n l1 = l1 := by
      unfold takeLastPy
      rw [if_neg hnz, Nat.sub_eq_zero_of_le hlen, List.drop_zero]
    have ht2 : takeLastPy n l2 = l2 := by
      unfold takeLastPy
      rw [if_neg hnz, Nat.sub_eq_zero_of_le hlen2, List.drop_zero]
    have hpw2 : l2.Pairwise (fun a b => a.created ≠ b.created) :=
      (hp.pairwise_iff (fun h e => h e.symm)).mp hpw
    have hs1 : (List.insertionSort (fun a b : Message => a.created ≤ b.created)
        l1).Pairwise (fun a b : Message => a.created < b.created) := by
      have hsort := List.sorted_insertionSort
        (fun a b : Message => a.created ≤ b.created) l1
      have hpws : (List.insertionSort
          (fun a b : Message => a.created ≤ b.created) l1).Pairwise
          (fun a b : Message => a.created ≠ b.created) :=
        ((List.perm_insertionSort _ l1).pairwise_iff (fun h e => h e.symm)).mpr hpw
      exact (List.Pairwise.and hsort hpws).imp
        (fun h => Nat.lt_of_le_of_ne h.1 h.2)
    have hs2 : (List.insertionSort (fun a b : Message => a.created ≤ b.created)
        l2).Pairwise (fun a b : Message => a.created < b.created) := by
      have hsort := List.sorted_insertionSort
        (fun a b : Message => a.created ≤ b.created) l2
      have hpws : (List.insertionSort
          (fun a b : Message => a.created ≤ b.created) l2).Pairwise
          (fun a b : Message => a.created ≠ b.created) :=
        ((List.perm_insertionSort _ l2).pairwise_iff (fun h e => h e.symm)).mpr hpw2
      exact (List.Pairwise.and hsort hpws).imp
        (fun h => Nat.lt_of_le_of_ne h.1 h.2)
    have hperm : (List.insertionSort
        (fun a b : Message => a.created ≤ b.created) l1).Perm
        (List.insertionSort (fun a b : Message => a.created ≤ b.created) l2) :=
      ((List.perm_insertionSort _ l1).trans hp).trans
        (List.perm_insertionSort _ l2).symm
    have hsorteq := List.eq_of_perm_of_sorted hperm hs1 hs2
    unfold format_dialog_history formatLines
    rw [ht1, ht2, hsorteq]
  · have h1 := List.length_filterMap_le renderLine
      (List.insertionSort (fun a b : Message => a.created ≤ b.created)
        (takeLastPy n l1))
    have h2 : (List.insertionSort
        (fun a b : Message => a.created ≤ b.created)
        (takeLastPy n l1)).length = (takeLastPy n l1).length :=
      (List.perm_insertionSort _ _).length_eq
    have h3 : (takeLastPy n l1).length ≤ n := by
      unfold takeLastPy
      rw [if_neg hnz, List.length_drop]
      omega
    unfold formatLines
    omega

def W4a : Message := ⟨"in", "text", "x", 1⟩

def W4b : Message := ⟨"in", "text", "y", 2⟩

/-- Witness for C4 (amended): two distinct-timestamp messages within the cap
give the same transcript in either order, and the line bound holds. -/
theorem C4_formatter_invariance_witness :
    format_dialog_history 30 [W4a, W4b] = format_dialog_history 30 [W4b, W4a] ∧
    (formatLines 30 [W4a, W4b]).length ≤ 30 :=
  ⟨(C4_formatter_invariance 30 [W4a, W4b] [W4b, W4a] (by decide)).1
      (List.Perm.swap _ _ _) (by decide) (by decide),
    (C4_formatter_invariance 30 [W4a, W4b] [W4b, W4a] (by decide)).2⟩

def C5cxMsgs : List Message :=
  [⟨"out", "text", "здравствуйте светлана", 1⟩,
   ⟨"in", "text", "человек месяц август 1 2 3 4 5 6 7 8 9 0", 2⟩]

/-- Counterexample to C5 as stated: an input that reaches rule 9 (the first
seven conjuncts establish that every earlier rule's condition is unmet), in
which no client message contains a run of 10 consecutive digit characters
(the spec's predicate) and the agent's last message references neither phone
nor number — so the claim predicts `contacts` — yet the classifier returns
`complete`, because the source counts the total number of digit characters
in a message (here ten separated digits), not a consecutive run. -/
theorem C5_rule9_counterexample :
    (agentMessages C5cxMsgs).isEmpty = false ∧
    hasGreeting (agentMessages C5cxMsgs) = true ∧
    (!hasResidentsInfo (clientText (clientMessages C5cxMsgs))
      || strContains (lastAgentMsg (agentMessages C5cxMsgs))
        "кто проживать планирует") = false ∧
    ((strContains (lastAgentMsg (agentMessages C5cxMsgs)) "дет"
      || strContains (lastAgentMsg (agentMessages C5cxMsgs)) "ребен")
      && !hasPeriodInfo (clientText (clientMessages C5cxMsgs))) = false ∧
    ((strContains (lastAgentMsg (agentMessages C5cxMsgs)) "животн"
      || strContains (lastAgentMsg (agentMessages C5cxMsgs)) "питом")
      && !hasPeriodInfo (clientText (clientMessages C5cxMsgs))) = false ∧
    (!hasPeriodInfo (clientText (clientMessages C5cxMsgs))
      || (strContains (lastAgentMsg (agentMessages C5cxMsgs)) "срок"
      || strContains (lastAgentMsg (agentMessages C5cxMsgs)) "месяц")) = false ∧
    (!hasDateInfo (clientText (clientMessages C5cxMsgs))
      || (strContains (lastAgentMsg (agentMessages C5cxMsgs)) "дата"
      || strContains (lastAgentMsg (agentMessages C5cxMsgs)) "заез")) = false ∧
    (clientMessages C5cxMsgs).all (fun m => !specHasDigitRun 10 m) = true ∧
    strContains (lastAgentMsg (agentMessages C5cxMsgs)) "телефон" = false ∧
    strContains (lastAgentMsg (agentMessages C5cxMsgs)) "номер" = false ∧
    determine_dialog_stage C5cxMsgs = Stage.complete := by decide

/-- C5 (amended): for every message list that reaches rule 9 (all earlier
rules' conditions unmet, expressed by the hypotheses), the classifier returns
`contacts` exactly when no client message contains at least 10 digit
characters in total (not necessarily consecutive), or the agent's last
message references phone/number; otherwise it returns `complete`. -/
theorem C5_rule9_contacts (messages : List Message)
    (h1 : (agentMessages messages).isEmpty = false)
    (h2 : hasGreeting (agentMessages messages) = true)
    (h3 : (!hasResidentsInfo (clientText (clientMessages messages))
        || strContains (lastAgentMsg (agentMessages messages))
          "кто проживать планирует") = false)
    (h4 : ((strContains (lastAgentMsg (agentMessages messages)) "дет"
        || strContains (lastAgentMsg (agentMessages messages)) "ребен")
        && !hasPeriodInfo (clientText (clientMessages messages))) = false)
    (h5 : ((strContains (lastAgentMsg (agentMessages messages)) "животн"
        || strContains (lastAgentMsg (agentMessages messages)) "питом")
        && !hasPeriodInfo (clientText (clientMessages messages))) = false)
    (h6 : (!hasPeriodInfo (clientText (clientMessages messages))
        || (strContains (lastAgentMsg (agentMessages messages)) "срок"
        || strContains (lastAgentMsg (agentMessages messages)) "месяц")) = false)
    (h7 : (!hasDateInfo (clientText (clientMessages messages))
        || (strContains (lastAgentMsg (agentMessages messages)) "дата"
        || strContains (lastAgentMsg (agentMessages messages)) "заез")) = false) :
    determine_dialog_stage messages =
      (if !hasPhone (clientMessages messages)
          || (strContains (lastAgentMsg (agentMessages messages)) "телефон"
          || strContains (lastAgentMsg (agentMessages messages)) "номер")
        then Stage.contacts else Stage.complete) := by
  unfold determine_dialog_stage
  simp only [h1, h2, h3, h4, h5, h6, h7, Bool.not_true, Bool.false_eq_true,
    if_false]

def W5msgs : List Message :=
  [⟨"out", "text", "здравствуйте светлана", 1⟩,
   ⟨"in", "text", "человек месяц август 12345678901", 2⟩]

/-- Witness for C5 (amended): a client message with eleven digit characters
and no phone reference in the agent's last message lands in `complete`. -/
theorem C5_rule9_contacts_witness :
    determine_dialog_stage W5msgs = Stage.complete :=
  (C5_rule9_contacts W5msgs (by decide) (by decide) (by decide) (by decide)
    (by decide) (by decide) (by decide)).trans (by decide)

def C6cxEnv : ChatEnv :=
  ⟨[⟨"in", "text", "hi", 100⟩], 0, some "aabb", true, false,
    some [("phone", PyVal.s "123")], true⟩

/-- Counterexample to C6 as stated: with completion marker "ab" and generated
response "aabb" (which contains the marker), the dispatched text is "ab" —
removing the single occurrence juxtaposes the remaining characters into a
fresh occurrence — so the dispatched text DOES contain the completion-marker
substring, refuting the claim's parenthetical. -/
theorem C6_marker_counterexample :
    strContains "aabb" "ab" = true ∧
    (process_chat ⟨"ab", 30⟩ "c1" C6cxEnv initState).2 =
      [Effect.genCall "Клиент: hi" true, Effect.sendMsg "c1" "ab",
        Effect.extractCall "Клиент: hi\nСветлана: ab",
        Effect.notify [("phone", PyVal.s "123")]] ∧
    strContains "ab" "ab" = true := by decide

/-- C6 (amended): for every generated response containing the completion
marker that reaches a successful dispatch, the text dispatched to the client
is the response with all non-overlapping occurrences of the marker removed
(leftmost first) and whitespace-trimmed — which may still contain the marker
substring when the removal juxtaposes a new occurrence — the raw pre-strip
response is what the completion test examines, and exactly one handoff
(hence, when the extractor yields a mapping, exactly one notifier call)
follows the dispatch, after which the conversation is completed and its
`last_processed_created` is the inbound message's timestamp. -/
theorem C6_completion_dispatch (cfg : Config) (cid : String) (env : ChatEnv)
    (s : BotState) (m : Message) (r : String) (d : FieldMap)
    (hc : s.completed cid = false)
    (hlast : lastIncoming env.messages = some m)
    (hfresh : ¬ m.created < env.cutoff)
    (hnew : ¬ m.created ≤ s.processed cid)
    (hout : env.messages.any
      (fun x => x.direction == "out" && decide (m.created < x.created)) = false)
    (hresp : env.response = some r)
    (hne : (r == "") = false)
    (hmark : check_dialog_completion cfg.marker r = true)
    (hsend : env.sendOk = true)
    (hraise : env.extractRaises = false)
    (hextr : env.extracted = some d)
    (hd : d.isEmpty = false) :
    (process_chat cfg cid env s).2 =
      [Effect.genCall (format_dialog_history cfg.histCap env.messages)
          (is_first_message env.messages),
        Effect.sendMsg cid (pyStrip (pyReplace r cfg.marker)),
        Effect.extractCall (format_dialog_history cfg.histCap env.messages
          ++ "\nСветлана: " ++ pyStrip (pyReplace r cfg.marker)),
        Effect.notify d] ∧
    (process_chat cfg cid env s).1.completed cid = true ∧
    (process_chat cfg cid env s).1.processed cid = m.created := by
  unfold process_chat handle_completed_dialog
  rw [lastIncoming_isEmpty_false env.messages m hlast, hlast]
  simp only [hc, hout, hresp, hne, hmark, hsend, hraise, hextr, hd,
    if_neg hfresh, if_neg hnew, Bool.false_eq_true, if_false, if_true]
  simp [fupdate]

def W6env : ChatEnv :=
  ⟨[⟨"in", "text", "hello", 50⟩], 0, some "priceDONE", true, false,
    some [("name", PyVal.s "Ivan")], true⟩

/-- Witness for C6 (amended) with marker "DONE" and response "priceDONE":
one dispatch of the stripped reply, one extractor call, one notifier call,
completion recorded. -/
theorem C6_completion_dispatch_witness :
    (process_chat ⟨"DONE", 30⟩ "c9" W6env initState).2 =
      [Effect.genCall (format_dialog_history 30 W6env.messages)
          (is_first_message W6env.messages),
        Effect.sendMsg "c9" (pyStrip (pyReplace "priceDONE" "DONE")),
        Effect.extractCall (format_dialog_history 30 W6env.messages
          ++ "\nСветлана: " ++ pyStrip (pyReplace "priceDONE" "DONE")),
        Effect.notify [("name", PyVal.s "Ivan")]] ∧
    (process_chat ⟨"DONE", 30⟩ "c9" W6env initState).1.completed "c9" = true ∧
    (process_chat ⟨"DONE", 30⟩ "c9" W6env initState).1.processed "c9" = 50 :=
  C6_completion_dispatch ⟨"DONE", 30⟩ "c9" W6env initState
    ⟨"in", "text", "hello", 50⟩ "priceDONE" [("name", PyVal.s "Ivan")]
    rfl (by decide) (by decide) (by decide) (by decide) rfl (by decide)
    (by decide) rfl rfl rfl (by decide)

/-- C7: for the single inbound text message "Hello" at `created = 100` with
no outbound message, the classifier returns `greeting`, the formatter yields
the one-line transcript consisting of the fixed client label and the text
(the source's client label is "Клиент"), and the reconciler's first-message
flag is true. -/
theorem C7_single_message_scenario :
    determine_dialog_stage [⟨"in", "text", "Hello", 100⟩] = Stage.greeting ∧
    format_dialog_history 30 [⟨"in", "text", "Hello", 100⟩] = "Клиент: Hello" ∧
    is_first_message [⟨"in", "text", "Hello", 100⟩] = true := by decide

/-- C8: whenever `has_children` (resp. `has_pets`) is missing or falsy in the
field mapping, the rendered summary contains the explicit default line
"Дети: Нет" (resp. "Животные: Нет") rather than omitting it. -/
theorem C8_default_lines (d : FieldMap) :
    ((fget d "has_children").truthy = false →
      ∃ pre post, render_client_message d = pre ++ "Дети: Нет\n" ++ post) ∧
    ((fget d "has_pets").truthy = false →
      ∃ pre post, render_client_message d = pre ++ "Животные: Нет\n" ++ post) := by
  constructor
  · intro h
    refine ⟨"НОВАЯ ЗАЯВКА НА АРЕНДУ\n\n" ++ optLine d "name" "Имя: "
      ++ optLine d "phone" "Телефон: " ++ optLine d "residents_info" "Жильцы: "
      ++ optLine d "residents_count" "Количество взрослых: ",
      petsLine d ++ optLine d "rental_period" "Срок аренды: "
      ++ optLine d "move_in_deadline" "Дата заезда: "
      ++ "\nСтатус: Готов к презентации собственнице", ?_⟩
    unfold render_client_message childrenLine
    rw [h]
    simp [String.append_assoc]
  · intro h
    refine ⟨"НОВАЯ ЗАЯВКА НА АРЕНДУ\n\n" ++ optLine d "name" "Имя: "
      ++ optLine d "phone" "Телефон: " ++ optLine d "residents_info" "Жильцы: "
      ++ optLine d "residents_count" "Количество взрослых: " ++ childrenLine d,
      optLine d "rental_period" "Срок аренды: "
      ++ optLine d "move_in_deadline" "Дата заезда: "
      ++ "\nСтатус: Готов к презентации собственнице", ?_⟩
    unfold render_client_message petsLine
    rw [h]
    simp [String.append_assoc]

/-- Witness for C8: the empty mapping (both fields missing) still renders the
default children line. -/
theorem C8_default_lines_witness :
    ∃ pre post, render_client_message [] = pre ++ "Дети: Нет\n" ++ post :=
  (C8_default_lines []).1 (by rfl)

/-- C9: the agent-label de-duplication of the History Formatter strips at
most one leading occurrence of the label — an outgoing message whose text
begins with the agent label twice is rendered with one redundant embedded
label still present. -/
theorem C9_single_strip :
    format_dialog_history 30 [⟨"out", "text", "Светлана: Светлана: hi", 5⟩] =
      "Светлана: Светлана: hi" := by decide

/-- C10: `send_client_info` is total at its public interface: this exhausts
its behaviour for every input shape and every outcome of the fallible inner
steps (JSON parsing of a string input, attribute access on a non-mapping,
the HTTP send), showing it always returns a boolean — `false` on any internal
failure, the send's result otherwise — and never propagates an exception. -/
theorem C10_send_client_info_total (parse : String → Except String PyObj)
    (send : String → Except String Bool) :
    (∀ s e, parse s = Except.error e →
      send_client_info (ClientInfoInput.str s) parse send = false) ∧
    (∀ s, parse s = Except.ok PyObj.nonDict →
      send_client_info (ClientInfoInput.str s) parse send = false) ∧
    (send_client_info (ClientInfoInput.obj PyObj.nonDict) parse send = false) ∧
    (∀ d e, send (render_client_message d) = Except.error e →
      send_client_info (ClientInfoInput.obj (PyObj.dict d)) parse send = false) ∧
    (∀ d b, send (render_client_message d) = Except.ok b →
      send_client_info (ClientInfoInput.obj (PyObj.dict d)) parse send = b) ∧
    (∀ s d, parse s = Except.ok (PyObj.dict d) →
      send_client_info (ClientInfoInput.str s) parse send =
        (match send (render_client_message d) with
          | Except.ok b => b
          | Except.error _ => false)) := by
  refine ⟨?_, ?_, ?_, ?_, ?_, ?_⟩
  · intro s e h
    simp only [send_client_info]
    rw [h]
  · intro s h
    simp only [send_client_info]
    rw [h]
  · rfl
  · intro d e h
    simp only [send_client_info]
    rw [h]
  · intro d b h
    simp only [send_client_info]
    rw [h]
  · intro s d h
    simp only [send_client_info]
    rw [h]

/-- Witness for C10: a string input that fails to parse yields `false`. -/
theorem C10_send_client_info_total_witness :
    send_client_info (ClientInfoInput.str "not json")
      (fun _ => Except.error "JSONDecodeError")
      (fun _ => Except.ok true) = false :=
  (C10_send_client_info_total (fun _ => Except.error "JSONDecodeError")
    (fun _ => Except.ok true)).1 "not json" "JSONDecodeError" rfl
